import Mathlib

/-!
Verification of the projeto-paa web chat client.

The development shallowly embeds the two components of the repository:

* the proxy endpoint `POST /api/chat` (validation, payload normalization and
  upstream error mapping), and
* the browser-side conversation controller of `app/page.tsx`
  (history trimming, the send-cycle state machine, and the
  fence-based prose/code segmentation used to render assistant replies).

JavaScript string primitives (`split`, `trim`, `includes`, and the regex
`/^\w+\s*\n/`) are re-implemented over `List Char` so that every definition
reduces in the kernel.
-/

namespace Chat

/-! ## JavaScript string primitives -/

/-- Character class of the JavaScript `\s` regex escape (ASCII part):
space, tab, newline, carriage return, vertical tab, form feed. -/
def jsWhite (c : Char) : Bool :=
  c == ' ' || c == '\t' || c == '\n' || c == '\r' || c == '\x0b' || c == '\x0c'

/-- Character class of the JavaScript `\w` regex escape: `[A-Za-z0-9_]`. -/
def isWordChar (c : Char) : Bool :=
  c.isAlpha || c.isDigit || c == '_'

/-- `String.prototype.trim`: strip leading and trailing whitespace. -/
def trimChars (cs : List Char) : List Char :=
  ((cs.dropWhile jsWhite).reverse.dropWhile jsWhite).reverse

/-- `s.trim()` of JavaScript. -/
def strTrim (s : String) : String := ⟨trimChars s.data⟩

/-- Substring occurrence test, the core of `String.prototype.includes`. -/
def containsSub (pat : List Char) : List Char → Bool
  | [] => pat.isEmpty
  | c :: rest => pat.isPrefixOf (c :: rest) || containsSub pat rest

/-- `s.includes(pat)` of JavaScript. -/
def strContains (s pat : String) : Bool := containsSub pat.data s.data

/-- Fuel-driven worker for `String.prototype.split` with a non-empty
separator: scan left to right, cutting at each (non-overlapping)
occurrence of the separator.  The fuel is the length of the remaining
input, so the `0, cs` fallback is never reached when called with
`fuel = cs.length`. -/
def splitFuel (pat : List Char) : Nat → List Char → List (List Char)
  | _, [] => [[]]
  | 0, cs => [cs]
  | fuel+1, c :: rest =>
    if pat.isPrefixOf (c :: rest) then
      [] :: splitFuel pat fuel ((c :: rest).drop pat.length)
    else
      match splitFuel pat fuel rest with
      | [] => [[]]
      | h :: t => (c :: h) :: t

/-- `s.split(pat)` of JavaScript (non-empty `pat`). -/
def strSplit (s pat : String) : List String :=
  (splitFuel pat.data s.data.length s.data).map (fun cs => ⟨cs⟩)

/-- `part.replace(/^\w+\s*\n/, '')` from the renderer: if the string starts
with a maximal run of word characters followed by a whitespace run that
contains a newline, remove everything up to (and including) the last
newline of that whitespace run; otherwise return the string unchanged.
(The regex `\s*` is greedy, so the match extends to the last `\n` of the
whitespace run.) -/
def stripLangTag (s : String) : String :=
  let cs := s.data
  let w := cs.takeWhile isWordChar
  if w.isEmpty then s
  else
    let rest := cs.drop w.length
    let sp := rest.takeWhile jsWhite
    match sp.reverse.findIdx? (fun c => c == '\n') with
    | none => s
    | some k => ⟨rest.drop (sp.length - k)⟩

/-! ## Wire data model (route.ts interfaces and page.tsx `Message`) -/

/-- The `role` field of a conversational turn (`'user' | 'assistant'`). -/
inductive Role
  | user
  | assistant
deriving DecidableEq

/-- One `{role, content}` entry of the `messages` array sent to the proxy. -/
structure ChatMessageW where
  role : Role
  content : String
deriving DecidableEq

/-- Parsed JSON body of an inbound `POST /api/chat` request.  The route
destructures `{ prompt, max_tokens, temperature }` from it; a `messages`
field may also be present (the current frontend sends one) but the route
never reads it. -/
structure ChatBody where
  prompt : Option String := none
  messages : Option (List ChatMessageW) := none
  max_tokens : Option Int := none
  temperature : Option ℚ := none
deriving DecidableEq

/-- `gpu_memory` snapshot relayed from the inference server. -/
structure GpuMemory where
  allocated_gb : ℚ
  reserved_gb : ℚ
deriving DecidableEq

/-- Payload the proxy forwards to `POST {IA_SERVER_URL}/generate`
(the normalized `{ prompt, max_tokens, temperature }`). -/
structure GenerateBody where
  prompt : String
  max_tokens : Int
  temperature : ℚ
deriving DecidableEq

/-- Parsed JSON of a successful upstream response (`GenerateResponse`
minus the `success`/`error` fields, which the proxy re-derives). -/
structure UpstreamData where
  code : Option String := none
  tokens_generated : Option Nat := none
  inference_time_ms : Option ℚ := none
  gpu_memory : Option GpuMemory := none
deriving DecidableEq

/-- Outcome of the proxy's `fetch` to the inference server: either an HTTP
response (any status) whose body is available both as raw text and as
parsed JSON, or a thrown error carrying a message string. -/
inductive UpstreamOutcome
  | httpResponse (status : Nat) (errorText : String) (iaData : UpstreamData)
  | thrown (errorMessage : String)
deriving DecidableEq

/-- JSON response produced by the route, together with its HTTP status.
Fields the route does not set in a given branch are `none`. -/
structure ApiResponse where
  status : Nat
  error : Option String := none
  details : Option String := none
  hint : Option String := none
  success : Option Bool := none
  code : Option String := none
  tokens_generated : Option Nat := none
  inference_time_ms : Option ℚ := none
  gpu_memory : Option GpuMemory := none
deriving DecidableEq

/-! ## The proxy endpoint (`POST /api/chat`) -/

/-- Default inference-server base address
(`process.env.IA_SERVER_URL || 'http://localhost:5000'`). -/
def IA_SERVER_URL : String := "http://localhost:5000"

/-- `fetch`'s `Response.ok`: status in the inclusive range 200–299. -/
def statusOk (status : Nat) : Bool := 200 ≤ status && status ≤ 299

/-- `!contentType?.includes('application/json')` — a missing header or one
not containing `application/json` fails the check. -/
def jsonContentTypeOk : Option String → Bool
  | none => false
  | some ct => strContains ct "application/json"

/-- The guard `temperature && (temperature < 0 || temperature > 1)`:
an absent temperature is skipped, and so is `0` (falsy in JavaScript). -/
def temperatureRejected : Option ℚ → Bool
  | none => false
  | some t => t != 0 && (decide (t < 0) || decide (t > 1))

/-- Field validation and payload normalization of the route, lines 75–122:
reject a missing/empty prompt, a whitespace-only prompt, a prompt longer
than 2000 characters, and a (nonzero) temperature outside `[0,1]`;
otherwise build the upstream body with `max_tokens || 512` and
`temperature || 0.7`. -/
def validateAndNormalize (body : ChatBody) : Except ApiResponse GenerateBody :=
  match body.prompt with
  | none => .error { status := 400, error := some "Prompt é obrigatório e deve ser string" }
  | some prompt =>
    if prompt = "" then
      .error { status := 400, error := some "Prompt é obrigatório e deve ser string" }
    else if (strTrim prompt).length = 0 then
      .error { status := 400, error := some "Prompt não pode estar vazio" }
    else if prompt.length > 2000 then
      .error { status := 400, error := some "Prompt muito longo (máx 2000 caracteres)" }
    else if temperatureRejected body.temperature then
      .error { status := 400, error := some "Temperature deve estar entre 0 e 1" }
    else
      .ok { prompt := prompt
          , max_tokens := match body.max_tokens with
              | some m => if m ≠ 0 then m else 512
              | none => 512
          , temperature := match body.temperature with
              | some t => if t ≠ 0 then t else 0.7
              | none => 0.7 }

/-- Mapping of the upstream call's outcome to the route's response
(lines 124–181): a non-ok upstream status is relayed with `success=false`
and the upstream body in `details`; an ok status yields a 200 success
relay; a thrown error is classified by its message — `timeout` → 504,
`Failed to fetch` → 503 with a hint naming `IA_SERVER_URL`, anything
else → 500. -/
def handleUpstreamOutcome (outcome : UpstreamOutcome) : ApiResponse :=
  match outcome with
  | .httpResponse status errorText iaData =>
    if !(statusOk status) then
      { status := status
      , error := some ("IA Server error: " ++ toString status)
      , details := some errorText
      , success := some false }
    else
      { status := 200
      , success := some true
      , code := iaData.code
      , tokens_generated := iaData.tokens_generated
      , inference_time_ms := iaData.inference_time_ms
      , gpu_memory := iaData.gpu_memory }
  | .thrown errorMessage =>
    if strContains errorMessage "timeout" then
      { status := 504, error := some "Timeout: IA Server demorou muito (45s max)" }
    else if strContains errorMessage "Failed to fetch" then
      { status := 503
      , error := some "Não conseguiu conectar ao IA Server"
      , hint := some ("Verifique se Flask está rodando em " ++ IA_SERVER_URL) }
    else
      { status := 500, error := some ("Erro interno: " ++ errorMessage) }

/-- The whole `POST` handler.  `contentType` is the request's
`content-type` header; `parsedBody` is `none` when `request.json()`
throws; `upstream` is the inference server's behaviour on the forwarded
payload.  The second component records the payload of the upstream call,
`none` meaning no upstream call was made. -/
def POST (contentType : Option String) (parsedBody : Option ChatBody)
    (upstream : GenerateBody → UpstreamOutcome) : ApiResponse × Option GenerateBody :=
  if !jsonContentTypeOk contentType then
    ({ status := 400, error := some "Content-Type deve ser application/json" }, none)
  else
    match parsedBody with
    | none => ({ status := 400, error := some "JSON inválido" }, none)
    | some body =>
      match validateAndNormalize body with
      | .error resp => (resp, none)
      | .ok payload => (handleUpstreamOutcome (upstream payload), some payload)

/-! ## Conversation controller (`app/page.tsx`) -/

/-- The `Message` interface of `page.tsx`: one conversational turn held in
the `messages` state.  `loading` is the pending-placeholder flag
(`loading?: boolean`, absent read as `false`); `inferenceTime` is the
optional latency relayed from the server; `timestamp` is informational. -/
structure Message where
  id : String
  role : Role
  content : String
  timestamp : Nat
  loading : Bool := false
  inferenceTime : Option ℚ := none
deriving DecidableEq

/-- The designated welcome message installed by the initial
`useState` call; its id is the string `"0"`. -/
def welcomeMessage : Message :=
  { id := "0"
  , role := .assistant
  , content := "Olá! 👋 Sou seu assistente Python. Digite uma instrução e vou gerar código Python para você!"
  , timestamp := 0 }

/-- The controller's React state: `messages`, `input`, `loading`
(request-in-flight flag) and the `error` banner text. -/
structure ChatState where
  messages : List Message
  input : String
  loading : Bool
  error : Option String
deriving DecidableEq

/-- Initial state of `Home`: the welcome message, empty input, not
loading, no error banner. -/
def initialState : ChatState :=
  { messages := [welcomeMessage], input := "", loading := false, error := none }

/-- Filter used when building the request history:
`msg => !msg.loading && msg.id !== '0'` (drop the pending placeholder and
the welcome message). -/
def historyKeep (m : Message) : Bool := !m.loading && m.id != "0"

/-- Projection `msg => ({role: msg.role, content: msg.content})`. -/
def toWire (m : Message) : ChatMessageW := { role := m.role, content := m.content }

/-- The full history before trimming: filter out pending and welcome
messages, project to `{role, content}`, append the new user message. -/
def fullHistory (messages : List Message) (trimmedInput : String) : List ChatMessageW :=
  ((messages.filter historyKeep).map toWire) ++ [{ role := .user, content := trimmedInput }]

/-- History construction of `handleSendMessage` (lines 71–86): build the
full history, then `slice(-10)` — keep only the last 10 entries. -/
def buildRequestHistory (messages : List Message) (trimmedInput : String) : List ChatMessageW :=
  let messageHistory := fullHistory messages trimmedInput
  messageHistory.drop (messageHistory.length - 10)

/-- The JSON body the frontend sends to `/api/chat` (lines 88–99):
`{ messages: recentHistory, max_tokens: 512, temperature: 0.7 }` —
note that no `prompt` field is included. -/
def frontendRequestBody (messages : List Message) (trimmedInput : String) : ChatBody :=
  { prompt := none
  , messages := some (buildRequestHistory messages trimmedInput)
  , max_tokens := some 512
  , temperature := some 0.7 }

/-- The `userMessage` record built by `handleSendMessage` from the
trimmed input. -/
def userMessageOf (s : ChatState) (now : Nat) : Message :=
  { id := toString now, role := .user, content := strTrim s.input, timestamp := now }

/-- The `loadingMessage` pending placeholder appended while the request
is in flight. -/
def loadingMessageOf (now : Nat) : Message :=
  { id := toString (now + 1), role := .assistant, content := "⏳ Gerando código..."
  , timestamp := now, loading := true }

/-- The synchronous prefix of `handleSendMessage` on non-empty input while
idle: append the user message and the pending placeholder, clear the
input and the error banner, set `loading`. -/
def submitUpdate (s : ChatState) (now : Nat) : ChatState :=
  { s with messages := s.messages ++ [userMessageOf s now, loadingMessageOf now]
         , input := "", error := none, loading := true }

/-- The `assistantMessage` record built from a successful response. -/
def assistantMessageOf (code : String) (inferenceTimeMs : Option ℚ) (now : Nat) : Message :=
  { id := toString (now + 2), role := .assistant, content := code
  , timestamp := now, inferenceTime := inferenceTimeMs }

/-- The `errorMessage` record built in the `catch` block. -/
def errorMessageOf (errorMsg : String) (now : Nat) : Message :=
  { id := toString (now + 3), role := .assistant
  , content := "❌ Erro: " ++ errorMsg, timestamp := now }

/-- Successful resolution of a request: drop every loading message,
append the assistant message carrying the returned code and latency,
and (in the `finally` block) clear the in-flight flag. -/
def resolveSuccess (s : ChatState) (code : String) (inferenceTimeMs : Option ℚ)
    (now : Nat) : ChatState :=
  { s with messages := (s.messages.filter fun m => !m.loading)
      ++ [assistantMessageOf code inferenceTimeMs now]
         , loading := false }

/-- The `catch` block: surface the error banner, drop every loading
message, append the `❌ Erro:`-prefixed assistant message, and (in the
`finally` block) clear the in-flight flag. -/
def resolveFailure (s : ChatState) (errorMsg : String) (now : Nat) : ChatState :=
  { s with error := some errorMsg
         , messages := (s.messages.filter fun m => !m.loading) ++ [errorMessageOf errorMsg now]
         , loading := false }

/-- One transition of the controller: typing edits the input; a submit is
possible only while idle on input that is non-empty after trimming
(`if (!trimmedInput || loading) return`); a resolution (success or
failure) happens only while a request is in flight. -/
inductive Step : ChatState → ChatState → Prop
  | typeInput (s : ChatState) (t : String) : Step s { s with input := t }
  | submit (s : ChatState) (now : Nat) :
      s.loading = false → strTrim s.input ≠ "" → Step s (submitUpdate s now)
  | success (s : ChatState) (code : String) (t : Option ℚ) (now : Nat) :
      s.loading = true → Step s (resolveSuccess s code t now)
  | failure (s : ChatState) (msg : String) (now : Nat) :
      s.loading = true → Step s (resolveFailure s msg now)

/-- States reachable from the initial state. -/
inductive Reachable : ChatState → Prop
  | init : Reachable initialState
  | step {s s' : ChatState} : Reachable s → Step s s' → Reachable s'

/-! ## Response segmentation (assistant bubble of `page.tsx`, lines 189–232) -/

/-- A rendered piece of an assistant reply: a markdown text bubble or a
`CodeBlock`, the latter optionally carrying the `inferenceTimeMs` prop. -/
inductive Segment
  | text (s : String)
  | codeBlock (code : String) (inferenceTimeMs : Option ℚ)
deriving DecidableEq

/-- `parts.map((part, idx) => ...)` of the renderer: a part that is empty
after trimming renders nothing; an odd-index part becomes a `CodeBlock`
with the language tag stripped and trimmed, receiving the latency prop
exactly when `idx === 1`; an even-index part becomes a trimmed markdown
bubble. -/
def renderParts (inferenceTime : Option ℚ) : Nat → List String → List Segment
  | _, [] => []
  | idx, part :: rest =>
    let tail := renderParts inferenceTime (idx + 1) rest
    if strTrim part == "" then tail
    else if idx % 2 == 1 then
      Segment.codeBlock (strTrim (stripLangTag part))
        (if idx == 1 then inferenceTime else none) :: tail
    else
      Segment.text (strTrim part) :: tail

/-- The assistant-bubble renderer: if the content contains a fence
marker, split on it and render the parts; otherwise render the whole
content as one markdown bubble (untrimmed). -/
def renderAssistantContent (content : String) (inferenceTime : Option ℚ) : List Segment :=
  if strContains content "```" then
    renderParts inferenceTime 0 (strSplit content "```")
  else
    [Segment.text content]

/-- A segment without the latency prop, for comparing the renderer's
output shape against the specification's segmentation rule. -/
inductive PlainSeg
  | text (s : String)
  | codeBlock (code : String)
deriving DecidableEq

/-- Forget the latency prop of a segment. -/
def Segment.plain : Segment → PlainSeg
  | .text s => .text s
  | .codeBlock c _ => .codeBlock c

/-- Modelled from the spec: the segmentation rule of claim C3, applied
uniformly to the split parts — even positions are prose, odd positions
are code, segments empty after trimming are dropped, a leading
bare-word language tag of a code segment is stripped. -/
def claimSegsAux : Nat → List String → List PlainSeg
  | _, [] => []
  | idx, part :: rest =>
    let tail := claimSegsAux (idx + 1) rest
    if strTrim part == "" then tail
    else if idx % 2 == 1 then
      PlainSeg.codeBlock (strTrim (stripLangTag part)) :: tail
    else
      PlainSeg.text (strTrim part) :: tail

/-- Modelled from the spec: segmentation of a whole reply per claim C3
(split on the fence marker, then apply the uniform rule). -/
def claimSegments (content : String) : List PlainSeg :=
  claimSegsAux 0 (strSplit content "```")

/-- Does this segment carry the inference-latency value? -/
def Segment.hasLatency : Segment → Bool
  | .codeBlock _ (some _) => true
  | _ => false

/-- Is this segment a code block? -/
def Segment.isCode : Segment → Bool
  | .codeBlock _ _ => true
  | _ => false

/-! ## Helper lemmas -/

theorem strLength_zero {s : String} (h : s.length = 0) : s = "" := by
  cases s with
  | mk data =>
    have hd : data = [] := List.length_eq_zero.mp h
    subst hd
    rfl

theorem post_validate_error {contentType : Option String} {body : ChatBody}
    {upstream : GenerateBody → UpstreamOutcome} {r : ApiResponse}
    (hct : jsonContentTypeOk contentType = true)
    (hv : validateAndNormalize body = .error r) :
    POST contentType (some body) upstream = (r, none) := by
  simp [POST, hct, hv]

theorem post_validate_ok {contentType : Option String} {body : ChatBody}
    {upstream : GenerateBody → UpstreamOutcome} {payload : GenerateBody}
    (hct : jsonContentTypeOk contentType = true)
    (hv : validateAndNormalize body = .ok payload) :
    POST contentType (some body) upstream
      = (handleUpstreamOutcome (upstream payload), some payload) := by
  simp [POST, hct, hv]

theorem validate_error_empty {body : ChatBody} {p : String}
    (hp : body.prompt = some p) (h : (strTrim p).length = 0) :
    ∃ e : String, validateAndNormalize body = .error { status := 400, error := some e } := by
  by_cases hpe : p = ""
  · refine ⟨"Prompt é obrigatório e deve ser string", ?_⟩
    simp [validateAndNormalize, hp, hpe]
  · refine ⟨"Prompt não pode estar vazio", ?_⟩
    simp [validateAndNormalize, hp, hpe, h]

theorem validate_error_long {body : ChatBody} {p : String}
    (hp : body.prompt = some p) (h : p.length > 2000) :
    ∃ e : String, validateAndNormalize body = .error { status := 400, error := some e } := by
  by_cases hpe : p = ""
  · refine ⟨"Prompt é obrigatório e deve ser string", ?_⟩
    simp [validateAndNormalize, hp, hpe]
  by_cases htr : (strTrim p).length = 0
  · refine ⟨"Prompt não pode estar vazio", ?_⟩
    simp [validateAndNormalize, hp, hpe, htr]
  · refine ⟨"Prompt muito longo (máx 2000 caracteres)", ?_⟩
    simp [validateAndNormalize, hp, hpe, htr, h]

theorem validate_error_temperature {body : ChatBody} {p : String} {t : ℚ}
    (hp : body.prompt = some p) (ht : body.temperature = some t)
    (h : t < 0 ∨ 1 < t) :
    ∃ e : String, validateAndNormalize body = .error { status := 400, error := some e } := by
  by_cases hpe : p = ""
  · refine ⟨"Prompt é obrigatório e deve ser string", ?_⟩
    simp [validateAndNormalize, hp, hpe]
  by_cases htr : (strTrim p).length = 0
  · refine ⟨"Prompt não pode estar vazio", ?_⟩
    simp [validateAndNormalize, hp, hpe, htr]
  by_cases hlong : p.length > 2000
  · refine ⟨"Prompt muito longo (máx 2000 caracteres)", ?_⟩
    simp [validateAndNormalize, hp, hpe, htr, hlong]
  · have htz : t ≠ 0 := by
      rcases h with h | h
      · exact ne_of_lt h
      · exact (ne_of_lt (lt_trans one_pos h)).symm
    have hrej : temperatureRejected body.temperature = true := by
      rcases h with h | h <;> simp [temperatureRejected, ht, htz, h]
    refine ⟨"Temperature deve estar entre 0 e 1", ?_⟩
    simp [validateAndNormalize, hp, hpe, htr, hlong, hrej]

theorem temperature_in_range_not_rejected {temp : Option ℚ}
    (htemp : ∀ t : ℚ, temp = some t → 0 ≤ t ∧ t ≤ 1) :
    temperatureRejected temp = false := by
  cases temp with
  | none => rfl
  | some t =>
    obtain ⟨h0, h1⟩ := htemp t rfl
    simp [temperatureRejected, not_lt.mpr h0, not_lt.mpr h1]

theorem validate_pass {body : ChatBody} {p : String}
    (hp : body.prompt = some p) (hne : strTrim p ≠ "") (hlen : p.length ≤ 2000)
    (htemp : ∀ t : ℚ, body.temperature = some t → 0 ≤ t ∧ t ≤ 1) :
    validateAndNormalize body = .ok
      { prompt := p
      , max_tokens := match body.max_tokens with
          | some m => if m ≠ 0 then m else 512
          | none => 512
      , temperature := match body.temperature with
          | some t => if t ≠ 0 then t else 0.7
          | none => 0.7 } := by
  have hpe : p ≠ "" := by
    intro h
    subst h
    exact hne rfl
  have htr : ¬ (strTrim p).length = 0 := fun h => hne (strLength_zero h)
  have hlong : ¬ p.length > 2000 := not_lt.mpr hlen
  have hrej : temperatureRejected body.temperature = false :=
    temperature_in_range_not_rejected htemp
  simp [validateAndNormalize, hp, hpe, htr, hlong, hrej]

/-- The send-cycle invariant: while idle no message is pending; while a
request is in flight exactly one pending message exists and it is the
last element. -/
def PendingInv (s : ChatState) : Prop :=
  (s.loading = false → ∀ m ∈ s.messages, m.loading = false)
  ∧ (s.loading = true → ∃ pre lastMsg, s.messages = pre ++ [lastMsg]
      ∧ lastMsg.loading = true ∧ ∀ m ∈ pre, m.loading = false)

theorem pendingInv_initial : PendingInv initialState := by
  constructor
  · intro _ m hm
    rcases List.mem_singleton.mp hm with rfl
    rfl
  · intro h
    exact absurd h (by simp [initialState])

theorem filter_not_loading_all {ms : List Message}
    (h : ∀ m ∈ ms, m.loading = false) : ms.filter (fun m => !m.loading) = ms :=
  List.filter_eq_self.mpr (fun m hm => by simp [h m hm])

theorem pendingInv_step {s s' : ChatState} (hinv : PendingInv s) (hs : Step s s') :
    PendingInv s' := by
  obtain ⟨hidle, hbusy⟩ := hinv
  cases hs with
  | typeInput t =>
    exact ⟨hidle, hbusy⟩
  | submit now hld hne =>
    constructor
    · intro h
      exact absurd h (by simp [submitUpdate])
    · intro _
      refine ⟨s.messages ++ [userMessageOf s now], loadingMessageOf now, ?_, rfl, ?_⟩
      · simp [submitUpdate]
      · intro m hm
        rcases List.mem_append.mp hm with hm | hm
        · exact hidle hld m hm
        · rcases List.mem_singleton.mp hm with rfl
          rfl
  | success code t now hld =>
    constructor
    · intro _ m hm
      simp only [resolveSuccess] at hm
      rcases List.mem_append.mp hm with hm | hm
      · simpa using (List.mem_filter.mp hm).2
      · rcases List.mem_singleton.mp hm with rfl
        rfl
    · intro h
      exact absurd h (by simp [resolveSuccess])
  | failure msg now hld =>
    constructor
    · intro _ m hm
      simp only [resolveFailure] at hm
      rcases List.mem_append.mp hm with hm | hm
      · simpa using (List.mem_filter.mp hm).2
      · rcases List.mem_singleton.mp hm with rfl
        rfl
    · intro h
      exact absurd h (by simp [resolveFailure])

theorem pendingInv_reachable {s : ChatState} (h : Reachable s) : PendingInv s := by
  induction h with
  | init => exact pendingInv_initial
  | step _ hs ih => exact pendingInv_step ih hs

/-! ## The claims -/

/-- Claim C10: whenever the `content-type` header is absent or does not
include `application/json`, the route answers 400 with the content-type
error, independently of the body (so before any parsing or field
validation), and no upstream call is made. -/
theorem claim_c10_content_type_guard (contentType : Option String)
    (parsedBody : Option ChatBody) (upstream : GenerateBody → UpstreamOutcome)
    (h : jsonContentTypeOk contentType = false) :
    POST contentType parsedBody upstream
      = ({ status := 400, error := some "Content-Type deve ser application/json" }, none) := by
  simp [POST, h]

/-- Witness for C10 at a concrete `text/plain` request with a perfectly
valid body. -/
theorem claim_c10_content_type_guard_witness :
    jsonContentTypeOk (some "text/plain") = false ∧
    POST (some "text/plain") (some { prompt := some "hi" }) (fun _ => .thrown "x")
      = ({ status := 400, error := some "Content-Type deve ser application/json" }, none) :=
  ⟨rfl, claim_c10_content_type_guard (some "text/plain")
    (some { prompt := some "hi" }) (fun _ => .thrown "x") rfl⟩

/-- Claim C1 (refuted — code bug): the exact body the current frontend
sends — a `messages` array of `{role, content}` with no `prompt` field —
is rejected by the route with the missing-field error (status 400) and
no upstream call is made, contradicting the contract that a `messages`
array is valid input. -/
theorem claim_c1_messages_only_body_rejected :
    POST (some "application/json")
      (some (frontendRequestBody [welcomeMessage] "hi"))
      (fun _ => .thrown "unreachable")
      = ({ status := 400, error := some "Prompt é obrigatório e deve ser string" }, none)
    ∧ (frontendRequestBody [welcomeMessage] "hi").messages
      = some [{ role := .user, content := "hi" }]
    ∧ (frontendRequestBody [welcomeMessage] "hi").prompt = none :=
  ⟨rfl, rfl, rfl⟩

/-- Claim C2 (as stated): a whitespace-only prompt of length 3 — inside
the claimed "passing" region `length ∈ (0, 2000]` with temperature in
`[0,1]` — is rejected with the empty-input error and no upstream call. -/
theorem claim_c2_whitespace_prompt_rejected :
    POST (some "application/json")
      (some { prompt := some "   ", temperature := some (1/2) })
      (fun _ => .thrown "unreachable")
      = ({ status := 400, error := some "Prompt não pode estar vazio" }, none)
    ∧ ("   " : String).length = 3
    ∧ (0 : ℚ) ≤ 1/2 ∧ (1/2 : ℚ) ≤ 1 :=
  ⟨rfl, rfl, by norm_num, by norm_num⟩

/-- Claim C2 (amended): with a JSON content type and a string prompt, the
route rejects with a 400 and makes no upstream call whenever the prompt
is empty after trimming, or longer than 2000 characters, or the
temperature lies outside `[0,1]`; and every request whose prompt is
non-empty after trimming and at most 2000 characters long, with
temperature (if supplied) in `[0,1]`, passes validation and proceeds to
the upstream call. -/
theorem claim_c2_validation_gate (contentType : Option String) (body : ChatBody)
    (upstream : GenerateBody → UpstreamOutcome) (p : String)
    (hct : jsonContentTypeOk contentType = true)
    (hp : body.prompt = some p) :
    ((strTrim p).length = 0 →
        (POST contentType (some body) upstream).1.status = 400
        ∧ (POST contentType (some body) upstream).2 = none)
    ∧ (p.length > 2000 →
        (POST contentType (some body) upstream).1.status = 400
        ∧ (POST contentType (some body) upstream).2 = none)
    ∧ (∀ t : ℚ, body.temperature = some t → (t < 0 ∨ 1 < t) →
        (POST contentType (some body) upstream).1.status = 400
        ∧ (POST contentType (some body) upstream).2 = none)
    ∧ (strTrim p ≠ "" → p.length ≤ 2000 →
        (∀ t : ℚ, body.temperature = some t → 0 ≤ t ∧ t ≤ 1) →
        (POST contentType (some body) upstream).2.isSome = true) := by
  refine ⟨?_, ?_, ?_, ?_⟩
  · intro h
    obtain ⟨e, he⟩ := validate_error_empty hp h
    rw [post_validate_error hct he]
    exact ⟨rfl, rfl⟩
  · intro h
    obtain ⟨e, he⟩ := validate_error_long hp h
    rw [post_validate_error hct he]
    exact ⟨rfl, rfl⟩
  · intro t ht h
    obtain ⟨e, he⟩ := validate_error_temperature hp ht h
    rw [post_validate_error hct he]
    exact ⟨rfl, rfl⟩
  · intro hne hlen htemp
    rw [post_validate_ok hct (validate_pass hp hne hlen htemp)]
    rfl

/-- Witness for C2 (amended) at concrete requests: `"   "` is rejected
with no upstream call, and `"hi"` with temperature `1/2` reaches the
upstream call. -/
theorem claim_c2_validation_gate_witness :
    ((POST (some "application/json")
        (some { prompt := some "   ", temperature := some (1/2) })
        (fun _ => .thrown "x")).1.status = 400
      ∧ (POST (some "application/json")
        (some { prompt := some "   ", temperature := some (1/2) })
        (fun _ => .thrown "x")).2 = none)
    ∧ (POST (some "application/json")
        (some { prompt := some "hi", temperature := some (1/2) })
        (fun _ => .thrown "x")).2.isSome = true :=
  ⟨(claim_c2_validation_gate (some "application/json")
      { prompt := some "   ", temperature := some (1/2) }
      (fun _ => .thrown "x") "   " rfl rfl).1 rfl,
   (claim_c2_validation_gate (some "application/json")
      { prompt := some "hi", temperature := some (1/2) }
      (fun _ => .thrown "x") "hi" rfl rfl).2.2.2 (by decide) (by decide)
      (fun t ht => by
        injection ht with h
        subst h
        norm_num)⟩

/-- Claim C6 (as stated): a caller-supplied temperature of `0` — a value
in `[0,1]` — is not forwarded unchanged: because of the JavaScript
`temperature || 0.7` defaulting, the proxy forwards `0.7` instead. -/
theorem claim_c6_zero_temperature_not_forwarded :
    (POST (some "application/json")
        (some { prompt := some "hi", temperature := some 0 })
        (fun _ => .thrown "x")).2
      = some { prompt := "hi", max_tokens := 512, temperature := 0.7 }
    ∧ (0.7 : ℚ) ≠ 0 :=
  ⟨rfl, by norm_num⟩

/-- Claim C6 (amended): for every valid request, `max_tokens` is 512 when
omitted or `0` and a nonzero caller value is forwarded unchanged;
`temperature` is 0.7 when omitted or when the caller supplied `0`, and a
nonzero caller temperature in `(0,1]` is forwarded unchanged. -/
theorem claim_c6_payload_defaults (contentType : Option String) (body : ChatBody)
    (upstream : GenerateBody → UpstreamOutcome) (p : String)
    (hct : jsonContentTypeOk contentType = true)
    (hp : body.prompt = some p)
    (hne : strTrim p ≠ "") (hlen : p.length ≤ 2000)
    (htemp : ∀ t : ℚ, body.temperature = some t → 0 ≤ t ∧ t ≤ 1) :
    ∃ payload : GenerateBody,
      (POST contentType (some body) upstream).2 = some payload
      ∧ payload.prompt = p
      ∧ (body.max_tokens = none → payload.max_tokens = 512)
      ∧ (body.max_tokens = some 0 → payload.max_tokens = 512)
      ∧ (∀ m : Int, body.max_tokens = some m → m ≠ 0 → payload.max_tokens = m)
      ∧ (body.temperature = none → payload.temperature = 0.7)
      ∧ (body.temperature = some 0 → payload.temperature = 0.7)
      ∧ (∀ t : ℚ, body.temperature = some t → t ≠ 0 → payload.temperature = t) := by
  refine ⟨{ prompt := p
          , max_tokens := match body.max_tokens with
              | some m => if m ≠ 0 then m else 512
              | none => 512
          , temperature := match body.temperature with
              | some t => if t ≠ 0 then t else 0.7
              | none => 0.7 }, ?_, rfl, ?_, ?_, ?_, ?_, ?_, ?_⟩
  · rw [post_validate_ok hct (validate_pass hp hne hlen htemp)]
  · intro h
    simp [h]
  · intro h
    simp [h]
  · intro m h hm
    simp [h, hm]
  · intro h
    simp [h]
  · intro h
    simp [h]
  · intro t h ht
    simp [h, ht]

/-- Witness for C6 (amended) at a concrete request supplying
`max_tokens = 256` and `temperature = 1/2`. -/
theorem claim_c6_payload_defaults_witness :
    ∃ payload : GenerateBody,
      (POST (some "application/json")
        (some { prompt := some "hi", max_tokens := some 256, temperature := some (1/2) })
        (fun _ => .thrown "x")).2 = some payload
      ∧ payload.max_tokens = 256 ∧ payload.temperature = 1/2 := by
  obtain ⟨payload, hpost, -, -, -, hm, -, -, ht⟩ :=
    claim_c6_payload_defaults (some "application/json")
      { prompt := some "hi", max_tokens := some 256, temperature := some (1/2) }
      (fun _ => .thrown "x") "hi" rfl rfl (by decide) (by decide)
      (fun t ht => by
        injection ht with h
        subst h
        norm_num)
  exact ⟨payload, hpost, hm 256 rfl (by norm_num), ht (1/2) rfl (by norm_num)⟩

/-- Claim C5: the route maps every upstream outcome as specified — a
non-ok upstream status is relayed with the same status, `success=false`
and the upstream error text preserved in `details`; a thrown error whose
message mentions `timeout` yields 504; one mentioning `Failed to fetch`
yields 503 with a hint naming the configured upstream address; any other
thrown error yields 500 carrying its description. -/
theorem claim_c5_upstream_mapping :
    (∀ (status : Nat) (errorText : String) (iaData : UpstreamData),
      statusOk status = false →
      handleUpstreamOutcome (.httpResponse status errorText iaData)
        = { status := status
          , error := some ("IA Server error: " ++ toString status)
          , details := some errorText
          , success := some false })
    ∧ (∀ errorMessage : String, strContains errorMessage "timeout" = true →
        handleUpstreamOutcome (.thrown errorMessage)
          = { status := 504, error := some "Timeout: IA Server demorou muito (45s max)" })
    ∧ (∀ errorMessage : String, strContains errorMessage "timeout" = false →
        strContains errorMessage "Failed to fetch" = true →
        handleUpstreamOutcome (.thrown errorMessage)
          = { status := 503
            , error := some "Não conseguiu conectar ao IA Server"
            , hint := some ("Verifique se Flask está rodando em " ++ IA_SERVER_URL) }
          ∧ strContains ("Verifique se Flask está rodando em " ++ IA_SERVER_URL)
              IA_SERVER_URL = true)
    ∧ (∀ errorMessage : String, strContains errorMessage "timeout" = false →
        strContains errorMessage "Failed to fetch" = false →
        handleUpstreamOutcome (.thrown errorMessage)
          = { status := 500, error := some ("Erro interno: " ++ errorMessage) }) := by
  refine ⟨?_, ?_, ?_, ?_⟩
  · intro status errorText iaData h
    simp [handleUpstreamOutcome, h]
  · intro errorMessage h
    simp [handleUpstreamOutcome, h]
  · intro errorMessage h1 h2
    exact ⟨by simp [handleUpstreamOutcome, h1, h2], by decide⟩
  · intro errorMessage h1 h2
    simp [handleUpstreamOutcome, h1, h2]

/-- Witness for C5 at concrete outcomes: upstream 500 relay, a timeout
message, a connection-failure message, and an unclassified message. -/
theorem claim_c5_upstream_mapping_witness :
    handleUpstreamOutcome (.httpResponse 500 "boom" {})
      = { status := 500
        , error := some ("IA Server error: " ++ toString (500 : Nat))
        , details := some "boom"
        , success := some false }
    ∧ handleUpstreamOutcome (.thrown "timeout of 45000ms exceeded")
      = { status := 504, error := some "Timeout: IA Server demorou muito (45s max)" }
    ∧ handleUpstreamOutcome (.thrown "TypeError: Failed to fetch")
      = { status := 503
        , error := some "Não conseguiu conectar ao IA Server"
        , hint := some ("Verifique se Flask está rodando em " ++ IA_SERVER_URL) }
    ∧ handleUpstreamOutcome (.thrown "something odd")
      = { status := 500, error := some ("Erro interno: " ++ "something odd") } :=
  ⟨claim_c5_upstream_mapping.1 500 "boom" {} rfl,
   claim_c5_upstream_mapping.2.1 "timeout of 45000ms exceeded" (by decide),
   (claim_c5_upstream_mapping.2.2.1 "TypeError: Failed to fetch"
     (by decide) (by decide)).1,
   claim_c5_upstream_mapping.2.2.2 "something odd" (by decide) (by decide)⟩

/-- Claim C4: the history sent upstream is a suffix of the projected
non-pending, non-welcome history with the new user message appended,
of length `min (full length) 10`; with 12 prior kept messages the
request contains exactly the last 10 entries of the 13, in order. -/
theorem claim_c4_history_window (messages : List Message) (trimmedInput : String) :
    (∃ dropped, dropped ++ buildRequestHistory messages trimmedInput
      = fullHistory messages trimmedInput)
    ∧ (buildRequestHistory messages trimmedInput).length
      = min (fullHistory messages trimmedInput).length 10
    ∧ ((messages.filter historyKeep).length = 12 →
        buildRequestHistory messages trimmedInput
          = (fullHistory messages trimmedInput).drop 3
        ∧ (buildRequestHistory messages trimmedInput).length = 10) := by
  have hb : buildRequestHistory messages trimmedInput
      = (fullHistory messages trimmedInput).drop
          ((fullHistory messages trimmedInput).length - 10) := rfl
  refine ⟨⟨(fullHistory messages trimmedInput).take
      ((fullHistory messages trimmedInput).length - 10), ?_⟩, ?_, ?_⟩
  · rw [hb]
    exact List.take_append_drop _ _
  · rw [hb, List.length_drop]
    omega
  · intro h12
    have hlen : (fullHistory messages trimmedInput).length = 13 := by
      simp [fullHistory, h12]
    rw [hb, hlen]
    refine ⟨rfl, ?_⟩
    rw [List.length_drop, hlen]

/-- Witness for C4 at a conversation of 12 kept messages plus the new
user message. -/
theorem claim_c4_history_window_witness :
    buildRequestHistory
        (List.replicate 12 { id := "1", role := .user, content := "m", timestamp := 0 }) "q"
      = (fullHistory
        (List.replicate 12 { id := "1", role := .user, content := "m", timestamp := 0 }) "q").drop 3
    ∧ (buildRequestHistory
        (List.replicate 12 { id := "1", role := .user, content := "m", timestamp := 0 }) "q").length
      = 10 :=
  (claim_c4_history_window
    (List.replicate 12 { id := "1", role := .user, content := "m", timestamp := 0 }) "q").2.2
    (by decide)

/-- Claim C9: resolving a failure while a request is in flight clears the
in-flight flag (back to Idle), surfaces the error banner, leaves no
pending placeholder in the conversation, and appends a visible
`❌ Erro:`-prefixed assistant message as the last element. -/
theorem claim_c9_failure_resolution (s : ChatState) (errorMsg : String) (now : Nat)
    (_h : s.loading = true) :
    (resolveFailure s errorMsg now).loading = false
    ∧ (resolveFailure s errorMsg now).error = some errorMsg
    ∧ (∀ m ∈ (resolveFailure s errorMsg now).messages, m.loading = false)
    ∧ (resolveFailure s errorMsg now).messages.getLast?
      = some { id := toString (now + 3), role := .assistant
             , content := "❌ Erro: " ++ errorMsg, timestamp := now } := by
  refine ⟨rfl, rfl, ?_, ?_⟩
  · intro m hm
    rcases List.mem_append.mp hm with hm | hm
    · simpa using (List.mem_filter.mp hm).2
    · rcases List.mem_singleton.mp hm with rfl
      rfl
  · exact List.getLast?_concat _

/-- Witness for C9 at a concrete awaiting state (right after submitting
`"hi"` from the initial state). -/
theorem claim_c9_failure_resolution_witness :
    (resolveFailure (submitUpdate { initialState with input := "hi" } 1) "Erro 400" 2).loading = false
    ∧ (resolveFailure (submitUpdate { initialState with input := "hi" } 1) "Erro 400" 2).error
      = some "Erro 400"
    ∧ (∀ m ∈ (resolveFailure (submitUpdate { initialState with input := "hi" } 1) "Erro 400" 2).messages,
        m.loading = false)
    ∧ (resolveFailure (submitUpdate { initialState with input := "hi" } 1) "Erro 400" 2).messages.getLast?
      = some { id := toString (2 + 3 : Nat), role := .assistant
             , content := "❌ Erro: " ++ "Erro 400", timestamp := 2 } :=
  claim_c9_failure_resolution (submitUpdate { initialState with input := "hi" } 1) "Erro 400" 2 rfl

/-- Claim C8: in every reachable state at most one message is pending and
a pending message is the last element; moreover every transition only
ever appends to the sequence of non-pending messages (past messages are
never reordered or mutated, and the pending placeholder is removed
before any new one can be created — a submit requires the idle state, in
which no pending message exists). -/
theorem claim_c8_pending_placeholder :
    (∀ s : ChatState, Reachable s →
      (s.messages.filter fun m => m.loading).length ≤ 1
      ∧ ∀ m ∈ s.messages, m.loading = true → s.messages.getLast? = some m)
    ∧ (∀ s s' : ChatState, Step s s' →
        ∃ appended, s'.messages.filter (fun m => !m.loading)
          = (s.messages.filter fun m => !m.loading) ++ appended) := by
  constructor
  · intro s hr
    obtain ⟨hidle, hbusy⟩ := pendingInv_reachable hr
    cases hld : s.loading with
    | false =>
      have hall := hidle hld
      constructor
      · have hnil : s.messages.filter (fun m => m.loading) = [] :=
          List.filter_eq_nil_iff.mpr (fun m hm => by simp [hall m hm])
        simp [hnil]
      · intro m hm hml
        exact absurd hml (by simp [hall m hm])
    | true =>
      obtain ⟨pre, lastMsg, hmsgs, hlast, hpre⟩ := hbusy hld
      constructor
      · rw [hmsgs, List.filter_append]
        have hpren : pre.filter (fun m => m.loading) = [] :=
          List.filter_eq_nil_iff.mpr (fun m hm => by simp [hpre m hm])
        simp [hpren, hlast]
      · intro m hm hml
        rw [hmsgs] at hm ⊢
        rcases List.mem_append.mp hm with hm | hm
        · exact absurd hml (by simp [hpre m hm])
        · rcases List.mem_singleton.mp hm with rfl
          exact List.getLast?_concat _
  · intro s s' hs
    cases hs with
    | typeInput t =>
      exact ⟨[], by simp⟩
    | submit now hld hne =>
      refine ⟨[userMessageOf s now], ?_⟩
      show (submitUpdate s now).messages.filter _ = _
      simp [submitUpdate, List.filter_append, userMessageOf, loadingMessageOf]
    | success code t now hld =>
      refine ⟨[assistantMessageOf code t now], ?_⟩
      show (resolveSuccess s code t now).messages.filter _ = _
      have hidem : (s.messages.filter fun m => !m.loading).filter (fun m => !m.loading)
          = s.messages.filter fun m => !m.loading :=
        List.filter_eq_self.mpr (fun m hm => (List.mem_filter.mp hm).2)
      simp [resolveSuccess, List.filter_append, hidem, assistantMessageOf]
    | failure msg now hld =>
      refine ⟨[errorMessageOf msg now], ?_⟩
      show (resolveFailure s msg now).messages.filter _ = _
      have hidem : (s.messages.filter fun m => !m.loading).filter (fun m => !m.loading)
          = s.messages.filter fun m => !m.loading :=
        List.filter_eq_self.mpr (fun m hm => (List.mem_filter.mp hm).2)
      simp [resolveFailure, List.filter_append, hidem, errorMessageOf]

/-- Witness for C8 at the initial state and a concrete typing step. -/
theorem claim_c8_pending_placeholder_witness :
    ((initialState.messages.filter fun m => m.loading).length ≤ 1
      ∧ ∀ m ∈ initialState.messages, m.loading = true →
          initialState.messages.getLast? = some m)
    ∧ ∃ appended, (({ initialState with input := "x" } : ChatState).messages.filter
        (fun m => !m.loading))
      = (initialState.messages.filter fun m => !m.loading) ++ appended :=
  ⟨claim_c8_pending_placeholder.1 initialState Reachable.init,
   claim_c8_pending_placeholder.2 initialState { initialState with input := "x" }
     (Step.typeInput initialState "x")⟩

theorem map_plain_renderParts (t : Option ℚ) :
    ∀ (parts : List String) (idx : Nat),
      (renderParts t idx parts).map Segment.plain = claimSegsAux idx parts := by
  intro parts
  induction parts with
  | nil => intro idx; rfl
  | cons part rest ih =>
    intro idx
    by_cases he : strTrim part == ""
    · simp only [renderParts, claimSegsAux, he, if_pos]
      exact ih (idx + 1)
    · by_cases hodd : idx % 2 == 1
      · simp only [renderParts, claimSegsAux, he, hodd, if_neg, if_pos,
          Bool.false_eq_true, not_false_eq_true, List.map_cons]
        exact congrArg _ (ih (idx + 1))
      · simp only [renderParts, claimSegsAux, he, hodd, if_neg,
          Bool.false_eq_true, not_false_eq_true, List.map_cons]
        exact congrArg _ (ih (idx + 1))

/-- Claim C3 (as stated): a reply with no fence marker is rendered as one
prose segment equal to the *untrimmed* input, not the trimmed input the
claim demands. -/
theorem claim_c3_no_fence_untrimmed :
    (renderAssistantContent " hi " none).map Segment.plain = [PlainSeg.text " hi "]
    ∧ claimSegments " hi " = [PlainSeg.text "hi"]
    ∧ PlainSeg.text " hi " ≠ PlainSeg.text "hi" :=
  ⟨rfl, rfl, by decide⟩

/-- Claim C3 (amended): when the reply contains a fence marker, the
renderer realizes exactly the claimed segmentation (split on the fence,
even positions prose, odd positions code, empty-after-trim segments
dropped, prose trimmed, language tag of code segments stripped); a reply
with no fence marker bypasses that rule and yields exactly one prose
segment equal to the untrimmed input. -/
theorem claim_c3_segmentation (content : String) (inferenceTime : Option ℚ) :
    (renderAssistantContent content inferenceTime).map Segment.plain
      = if strContains content "```" then claimSegments content
        else [PlainSeg.text content] := by
  by_cases h : strContains content "```"
  · rw [if_pos h]
    unfold renderAssistantContent claimSegments
    rw [if_pos h]
    exact map_plain_renderParts inferenceTime (strSplit content "```") 0
  · rw [if_neg h]
    unfold renderAssistantContent
    rw [if_neg h]
    rfl

theorem renderParts_no_latency (t : Option ℚ) :
    ∀ (parts : List String) (idx : Nat), 2 ≤ idx →
      ∀ seg ∈ renderParts t idx parts, Segment.hasLatency seg = false := by
  intro parts
  induction parts with
  | nil =>
    intro idx _ seg hseg
    simp [renderParts] at hseg
  | cons part rest ih =>
    intro idx h2 seg hseg
    simp only [renderParts] at hseg
    by_cases he : (strTrim part == "") = true
    · rw [if_pos he] at hseg
      exact ih (idx + 1) (by omega) seg hseg
    · rw [if_neg he] at hseg
      by_cases hodd : (idx % 2 == 1) = true
      · rw [if_pos hodd] at hseg
        rcases List.mem_cons.mp hseg with rfl | hseg
        · have h1 : (idx == 1) = false := by
            rw [beq_eq_false_iff_ne]
            omega
          simp [Segment.hasLatency, h1]
        · exact ih (idx + 1) (by omega) seg hseg
      · rw [if_neg hodd] at hseg
        rcases List.mem_cons.mp hseg with rfl | hseg
        · rfl
        · exact ih (idx + 1) (by omega) seg hseg

/-- Claim C7 (as stated): in a reply whose first fence-delimited chunk is
whitespace-only, the first non-empty code segment does *not* carry the
latency value even though one was supplied — the renderer attaches the
latency to split position 1 only, and that position was dropped. -/
theorem claim_c7_first_code_segment_unannotated :
    renderAssistantContent "a``` ```b```c```" (some 5)
      = [Segment.text "a", Segment.text "b", Segment.codeBlock "c" none]
    ∧ (renderAssistantContent "a``` ```b```c```" (some 5)).find? Segment.isCode
      = some (Segment.codeBlock "c" none)
    ∧ Segment.codeBlock "c" none ≠ Segment.codeBlock "c" (some 5) :=
  ⟨rfl, rfl, by decide⟩

/-- Claim C7 (amended): at most one rendered segment carries the
inference-latency value, and any segment that carries it is a code
segment that is also the first code segment of the reply (it is the
segment at split position 1; when that chunk is dropped as empty, no
code segment carries the latency).  In particular all code segments
after the first render without the latency value. -/
theorem claim_c7_latency_position (content : String) (t : Option ℚ) :
    ((renderAssistantContent content t).filter Segment.hasLatency).length ≤ 1
    ∧ ∀ seg ∈ renderAssistantContent content t, Segment.hasLatency seg = true →
        Segment.isCode seg = true
        ∧ (renderAssistantContent content t).find? Segment.isCode = some seg := by
  unfold renderAssistantContent
  by_cases hf : strContains content "```" = true
  · rw [if_pos hf]
    rcases hparts : strSplit content "```" with _ | ⟨p0, _ | ⟨p1, rest⟩⟩
    · constructor
      · simp [renderParts]
      · intro seg hseg
        simp [renderParts] at hseg
    · constructor
      · by_cases he : (strTrim p0 == "") = true
        · simp [renderParts, he]
        · simp [renderParts, he, Segment.hasLatency]
      · intro seg hseg hlat
        by_cases he : (strTrim p0 == "") = true
        · simp [renderParts, he] at hseg
        · simp [renderParts, he] at hseg
          subst hseg
          exact absurd hlat (by simp [Segment.hasLatency])
    · have hT2 := renderParts_no_latency t rest 2 (le_refl 2)
      have hT2nil : (renderParts t 2 rest).filter Segment.hasLatency = [] :=
        List.filter_eq_nil_iff.mpr (fun seg hs => by simp [hT2 seg hs])
      rcases t with _ | q
      · -- no latency value supplied: nothing can carry it
        constructor
        · by_cases he0 : (strTrim p0 == "") = true
            <;> by_cases he1 : (strTrim p1 == "") = true
            <;> simp [renderParts, he0, he1, Segment.hasLatency, hT2nil]
        · intro seg hseg hlat
          by_cases he0 : (strTrim p0 == "") = true
            <;> by_cases he1 : (strTrim p1 == "") = true
            <;> simp [renderParts, he0, he1] at hseg
          · exact absurd hlat (by simp [hT2 seg hseg])
          · rcases hseg with rfl | hseg
            · exact absurd hlat (by simp [Segment.hasLatency])
            · exact absurd hlat (by simp [hT2 seg hseg])
          · rcases hseg with rfl | hseg
            · exact absurd hlat (by simp [Segment.hasLatency])
            · exact absurd hlat (by simp [hT2 seg hseg])
          · rcases hseg with rfl | rfl | hseg
            · exact absurd hlat (by simp [Segment.hasLatency])
            · exact absurd hlat (by simp [Segment.hasLatency])
            · exact absurd hlat (by simp [hT2 seg hseg])
      · -- latency `some q`: only the position-1 code block can carry it
        constructor
        · by_cases he0 : (strTrim p0 == "") = true
            <;> by_cases he1 : (strTrim p1 == "") = true
            <;> simp [renderParts, he0, he1, Segment.hasLatency, hT2nil]
        · intro seg hseg hlat
          by_cases he0 : (strTrim p0 == "") = true
            <;> by_cases he1 : (strTrim p1 == "") = true
            <;> simp [renderParts, he0, he1] at hseg
          · exact absurd hlat (by simp [hT2 seg hseg])
          · rcases hseg with rfl | hseg
            · refine ⟨rfl, ?_⟩
              simp [renderParts, he0, he1, List.find?, Segment.isCode]
            · exact absurd hlat (by simp [hT2 seg hseg])
          · rcases hseg with rfl | hseg
            · exact absurd hlat (by simp [Segment.hasLatency])
            · exact absurd hlat (by simp [hT2 seg hseg])
          · rcases hseg with rfl | rfl | hseg
            · exact absurd hlat (by simp [Segment.hasLatency])
            · refine ⟨rfl, ?_⟩
              simp [renderParts, he0, he1, List.find?, Segment.isCode]
            · exact absurd hlat (by simp [hT2 seg hseg])
  · rw [if_neg hf]
    constructor
    · simp [Segment.hasLatency]
    · intro seg hseg hlat
      rcases List.mem_singleton.mp hseg with rfl
      exact absurd hlat (by simp [Segment.hasLatency])

/-- Witness for C7 (amended) at a concrete reply with one prose and one
annotated code segment. -/
theorem claim_c7_latency_position_witness :
    ((renderAssistantContent "x```python\ncode```" (some 3)).filter
        Segment.hasLatency).length ≤ 1
    ∧ (renderAssistantContent "x```python\ncode```" (some 3)).find? Segment.isCode
      = some (Segment.codeBlock "code" (some 3)) :=
  ⟨(claim_c7_latency_position "x```python\ncode```" (some 3)).1,
   ((claim_c7_latency_position "x```python\ncode```" (some 3)).2
     (Segment.codeBlock "code" (some 3)) (by decide) (by decide)).2⟩

end Chat
